import Mathlib

/-!
Shallow embedding of `cluster_run` (src/src/main.rs).

The program executes one shell command on every node of a cluster over SSH:
`main` joins the CLI arguments into a command string, loads `config.toml`,
and for each configured node calls `run_command`, which opens a TCP
connection on port 22, handshakes, resolves the local SSH key pair with
`get_ssh_key_paths`, authenticates as the fixed user `ubuntu`, opens a
channel, executes the command, reads all output and waits for the channel
to close.

The embedding makes the external effects explicit through a `World` value:
the process environment, the filesystem, the parsed configuration file and
the per-node outcome of every fallible SSH step.  Each function returns,
besides its result, the list of observable events it performed, so that
ordering and early-exit properties of the original control flow can be
stated and proved.
-/

namespace ClusterRun

/-- Equality of `Except` values is decidable when it is on both components;
used to evaluate the embedded functions on concrete worlds. -/
instance {ε α : Type} [DecidableEq ε] [DecidableEq α] :
    DecidableEq (Except ε α) := fun x y =>
  match x, y with
  | .error a, .error b =>
    if h : a = b then .isTrue (congrArg _ h)
    else .isFalse (fun hc => h (Except.error.inj hc))
  | .ok a, .ok b =>
    if h : a = b then .isTrue (congrArg _ h)
    else .isFalse (fun hc => h (Except.ok.inj hc))
  | .error _, .ok _ => .isFalse (fun hc => Except.noConfusion hc)
  | .ok _, .error _ => .isFalse (fun hc => Except.noConfusion hc)

/-- The failure modes of a single node attempt, one per fallible step of
`run_command` (the `?` operators in the Rust source), plus the two errors
`get_ssh_key_paths` can signal. -/
inductive RunError where
  | connectError
  | sessionError
  | handshakeError
  | configurationError
  | keyNotFound
  | authError
  | channelError
  | execError
  | readError
  | closeError
deriving DecidableEq

/-- Outcome of the fallible SSH steps for one node: whether each step
succeeds, and the output the remote command produces when everything
succeeds.  `connect` is `TcpStream::connect`, `sessionNew` is
`Session::new`, `handshake` is `sess.handshake`, `auth` is
`sess.userauth_pubkey_file`, `channelOpen` is `sess.channel_session`,
`exec` is `channel.exec`, `readOk` is `channel.read_to_string`
(UTF-8 decoding included) and `closeOk` is `channel.wait_close`. -/
structure SSHOutcome where
  connect : Bool
  sessionNew : Bool
  handshake : Bool
  auth : Bool
  channelOpen : Bool
  exec : Bool
  readOk : Bool
  output : String
  closeOk : Bool

/-- Failure modes of reading and parsing `config.toml` in `main`
(`fs::read_to_string` and `toml::from_str`). -/
inductive ConfigError where
  | missingFile
  | malformedSyntax
  | missingNodesField
deriving DecidableEq

/-- The external world a run observes: the process environment
(`env::var`), the filesystem (`Path::exists`), the joint result of reading
and deserializing `config.toml` (the `toml` crate is external code; its
outcome is the ordered node list of the `[cluster] nodes` field), and the
per-node SSH outcomes. -/
structure World where
  env : String → Option String
  fileExists : String → Bool
  config : Except ConfigError (List String)
  ssh : String → SSHOutcome

/-- Observable events of a run, in the order the program performs them. -/
inductive Event where
  | tcpConnect (node : String)
  | handshake (node : String)
  | resolveCreds (node : String)
  | auth (node user pubkey privkey : String)
  | channelOpen (node : String)
  | execRequest (node command : String)
  | readOutput (node : String)
  | waitClose (node : String)
deriving DecidableEq

/-- `get_ssh_key_paths` from the source: read `HOME` from the environment
(absence is the `configurationError` case), build `home/.ssh/id_rsa.pub` and
`home/.ssh/id_rsa`, and fail with `keyNotFound` unless both files exist. -/
def get_ssh_key_paths (w : World) : Except RunError (String × String) :=
  match w.env "HOME" with
  | none => .error .configurationError
  | some home =>
    let ssh_dir := home ++ "/.ssh"
    let pubkey := ssh_dir ++ "/id_rsa.pub"
    let privkey := ssh_dir ++ "/id_rsa"
    if !(w.fileExists pubkey) || !(w.fileExists privkey) then
      .error .keyNotFound
    else
      .ok (pubkey, privkey)

/-- `run_command` from the source: connect to `node:22`, create a session,
handshake, resolve the key paths, authenticate as `"ubuntu"`, open a
channel, request execution of `command`, read all output into a string and
wait for the channel to close.  Every step propagates its error with `?`;
the returned list records the events actually performed, in order. -/
def run_command (w : World) (node command : String) :
    List Event × Except RunError String :=
  let o := w.ssh node
  let t1 := [Event.tcpConnect node]
  if o.connect = false then (t1, .error .connectError) else
  if o.sessionNew = false then (t1, .error .sessionError) else
  let t2 := t1 ++ [Event.handshake node]
  if o.handshake = false then (t2, .error .handshakeError) else
  let t3 := t2 ++ [Event.resolveCreds node]
  match get_ssh_key_paths w with
  | .error e => (t3, .error e)
  | .ok (pubkey, privkey) =>
    let t4 := t3 ++ [Event.auth node "ubuntu" pubkey privkey]
    if o.auth = false then (t4, .error .authError) else
    let t5 := t4 ++ [Event.channelOpen node]
    if o.channelOpen = false then (t5, .error .channelError) else
    let t6 := t5 ++ [Event.execRequest node command]
    if o.exec = false then (t6, .error .execError) else
    let t7 := t6 ++ [Event.readOutput node]
    if o.readOk = false then (t7, .error .readError) else
    let t8 := t7 ++ [Event.waitClose node]
    if o.closeOk = false then (t8, .error .closeError) else
    (t8, .ok o.output)

/-- The lines `main` writes to standard output and standard error. -/
inductive OutLine where
  | welcome
  | usage (progName : String)
  | connecting (node : String)
  | outputBlock (node command output : String)
  | errorLine (node : String) (err : RunError)
  | blank
deriving DecidableEq

/-- The line printed for one node after its attempt: the labelled output
block on success, the labelled error line on failure. -/
def resultLine (w : World) (command node : String) : OutLine :=
  match (run_command w node command).2 with
  | .ok output => .outputBlock node command output
  | .error e => .errorLine node e

/-- The per-node loop of `main`: for each node in order, print the
connection announcement, call `run_command`, print its result, print a
blank separator.  Besides the printed lines it returns the concatenated
event trace and the list of executor invocations `(node, command)`. -/
def runNodes (w : World) (command : String) :
    List String → List OutLine × List Event × List (String × String)
  | [] => ([], [], [])
  | node :: rest =>
    let r := run_command w node command
    let tail := runNodes w command rest
    (OutLine.connecting node :: resultLine w command node :: OutLine.blank :: tail.1,
     r.1 ++ tail.2.1,
     (node, command) :: tail.2.2)

/-- Result of a whole run: the process exit status, the printed lines, the
event trace and the executor invocations. -/
structure MainResult where
  exitCode : Nat
  lines : List OutLine
  events : List Event
  calls : List (String × String)
deriving DecidableEq

/-- `main` from the source: print the welcome line; with fewer than two
arguments print the usage message and exit 1; otherwise join
`args[1..]` with single spaces into the command string, read and parse
`config.toml` (an error exits nonzero before any node is touched) and run
the per-node loop, exiting 0. -/
def main (w : World) (args : List String) : MainResult :=
  if args.length < 2 then
    ⟨1, [.welcome, .usage (args.headD "")], [], []⟩
  else
    let command := String.intercalate " " (args.drop 1)
    match w.config with
    | .error _ => ⟨1, [.welcome], [], []⟩
    | .ok nodes =>
      let r := runNodes w command nodes
      ⟨0, .welcome :: r.1, r.2.1, r.2.2⟩

/-! Concrete worlds used to evaluate the theorems on explicit inputs. -/

/-- Environment where `HOME` is `/home/u`. -/
def envHome : String → Option String :=
  fun v => if v = "HOME" then some "/home/u" else none

/-- Environment with no variables set. -/
def envEmpty : String → Option String := fun _ => none

/-- Filesystem holding exactly the two default key files. -/
def fsBothKeys : String → Bool :=
  fun p => p = "/home/u/.ssh/id_rsa.pub" || p = "/home/u/.ssh/id_rsa"

/-- Empty filesystem. -/
def fsEmpty : String → Bool := fun _ => false

/-- SSH outcome where every step succeeds and the command prints `hi`. -/
def sshAllOk : SSHOutcome :=
  ⟨true, true, true, true, true, true, true, "hi\n", true⟩

/-- SSH outcome of an unreachable node: the TCP connection fails. -/
def sshDown : SSHOutcome :=
  ⟨false, true, true, true, true, true, true, "", true⟩

/-- Fully healthy world with two nodes. -/
def wGood : World := ⟨envHome, fsBothKeys, .ok ["n1", "n2"], fun _ => sshAllOk⟩

/-- World where `HOME` is unset but the network is healthy. -/
def wNoHome : World := ⟨envEmpty, fsBothKeys, .ok ["n1", "n2"], fun _ => sshAllOk⟩

/-- World where the key files are missing and the network is healthy. -/
def wNoKeys : World := ⟨envHome, fsEmpty, .ok ["n1", "n2"], fun _ => sshAllOk⟩

/-- World where the key files are missing and the single node is
unreachable. -/
def wNoKeysDown : World := ⟨envHome, fsEmpty, .ok ["n1"], fun _ => sshDown⟩

/-- World where node `n1` is unreachable and node `n2` is healthy. -/
def wMixed : World :=
  ⟨envHome, fsBothKeys, .ok ["n1", "n2"],
   fun n => if n = "n1" then sshDown else sshAllOk⟩

/-- World whose configuration file lacks the node list field. -/
def wBadConfig : World :=
  ⟨envHome, fsBothKeys, .error .missingNodesField, fun _ => sshAllOk⟩

/-- The usernames carried by the authentication events of a trace.  Used to
state that authentication always happens as the hard-coded user. -/
def authUsers : List Event → List String
  | [] => []
  | Event.auth _ user _ _ :: rest => user :: authUsers rest
  | _ :: rest => authUsers rest

/-! Case lemmas for `run_command`: one per failure point, plus the success
case, characterizing the returned trace and result. -/

lemma rc_connect_false (w : World) (node command : String)
    (h : (w.ssh node).connect = false) :
    run_command w node command = ([.tcpConnect node], .error .connectError) := by
  simp [run_command, h]

lemma rc_session_false (w : World) (node command : String)
    (h1 : (w.ssh node).connect = true) (h2 : (w.ssh node).sessionNew = false) :
    run_command w node command = ([.tcpConnect node], .error .sessionError) := by
  simp [run_command, h1, h2]

lemma rc_handshake_false (w : World) (node command : String)
    (h1 : (w.ssh node).connect = true) (h2 : (w.ssh node).sessionNew = true)
    (h3 : (w.ssh node).handshake = false) :
    run_command w node command =
      ([.tcpConnect node, .handshake node], .error .handshakeError) := by
  simp [run_command, h1, h2, h3]

lemma rc_keys_error (w : World) (node command : String) (e : RunError)
    (h1 : (w.ssh node).connect = true) (h2 : (w.ssh node).sessionNew = true)
    (h3 : (w.ssh node).handshake = true)
    (hk : get_ssh_key_paths w = .error e) :
    run_command w node command =
      ([.tcpConnect node, .handshake node, .resolveCreds node], .error e) := by
  simp [run_command, h1, h2, h3, hk]

lemma rc_auth_false (w : World) (node command pubkey privkey : String)
    (h1 : (w.ssh node).connect = true) (h2 : (w.ssh node).sessionNew = true)
    (h3 : (w.ssh node).handshake = true)
    (hk : get_ssh_key_paths w = .ok (pubkey, privkey))
    (h4 : (w.ssh node).auth = false) :
    run_command w node command =
      ([.tcpConnect node, .handshake node, .resolveCreds node,
        .auth node "ubuntu" pubkey privkey], .error .authError) := by
  simp [run_command, h1, h2, h3, hk, h4]

lemma rc_channel_false (w : World) (node command pubkey privkey : String)
    (h1 : (w.ssh node).connect = true) (h2 : (w.ssh node).sessionNew = true)
    (h3 : (w.ssh node).handshake = true)
    (hk : get_ssh_key_paths w = .ok (pubkey, privkey))
    (h4 : (w.ssh node).auth = true) (h5 : (w.ssh node).channelOpen = false) :
    run_command w node command =
      ([.tcpConnect node, .handshake node, .resolveCreds node,
        .auth node "ubuntu" pubkey privkey, .channelOpen node],
       .error .channelError) := by
  simp [run_command, h1, h2, h3, hk, h4, h5]

lemma rc_exec_false (w : World) (node command pubkey privkey : String)
    (h1 : (w.ssh node).connect = true) (h2 : (w.ssh node).sessionNew = true)
    (h3 : (w.ssh node).handshake = true)
    (hk : get_ssh_key_paths w = .ok (pubkey, privkey))
    (h4 : (w.ssh node).auth = true) (h5 : (w.ssh node).channelOpen = true)
    (h6 : (w.ssh node).exec = false) :
    run_command w node command =
      ([.tcpConnect node, .handshake node, .resolveCreds node,
        .auth node "ubuntu" pubkey privkey, .channelOpen node,
        .execRequest node command], .error .execError) := by
  simp [run_command, h1, h2, h3, hk, h4, h5, h6]

lemma rc_read_false (w : World) (node command pubkey privkey : String)
    (h1 : (w.ssh node).connect = true) (h2 : (w.ssh node).sessionNew = true)
    (h3 : (w.ssh node).handshake = true)
    (hk : get_ssh_key_paths w = .ok (pubkey, privkey))
    (h4 : (w.ssh node).auth = true) (h5 : (w.ssh node).channelOpen = true)
    (h6 : (w.ssh node).exec = true) (h7 : (w.ssh node).readOk = false) :
    run_command w node command =
      ([.tcpConnect node, .handshake node, .resolveCreds node,
        .auth node "ubuntu" pubkey privkey, .channelOpen node,
        .execRequest node command, .readOutput node], .error .readError) := by
  simp [run_command, h1, h2, h3, hk, h4, h5, h6, h7]

lemma rc_close_false (w : World) (node command pubkey privkey : String)
    (h1 : (w.ssh node).connect = true) (h2 : (w.ssh node).sessionNew = true)
    (h3 : (w.ssh node).handshake = true)
    (hk : get_ssh_key_paths w = .ok (pubkey, privkey))
    (h4 : (w.ssh node).auth = true) (h5 : (w.ssh node).channelOpen = true)
    (h6 : (w.ssh node).exec = true) (h7 : (w.ssh node).readOk = true)
    (h8 : (w.ssh node).closeOk = false) :
    run_command w node command =
      ([.tcpConnect node, .handshake node, .resolveCreds node,
        .auth node "ubuntu" pubkey privkey, .channelOpen node,
        .execRequest node command, .readOutput node, .waitClose node],
       .error .closeError) := by
  simp [run_command, h1, h2, h3, hk, h4, h5, h6, h7, h8]

lemma rc_all_ok (w : World) (node command pubkey privkey : String)
    (h1 : (w.ssh node).connect = true) (h2 : (w.ssh node).sessionNew = true)
    (h3 : (w.ssh node).handshake = true)
    (hk : get_ssh_key_paths w = .ok (pubkey, privkey))
    (h4 : (w.ssh node).auth = true) (h5 : (w.ssh node).channelOpen = true)
    (h6 : (w.ssh node).exec = true) (h7 : (w.ssh node).readOk = true)
    (h8 : (w.ssh node).closeOk = true) :
    run_command w node command =
      ([.tcpConnect node, .handshake node, .resolveCreds node,
        .auth node "ubuntu" pubkey privkey, .channelOpen node,
        .execRequest node command, .readOutput node, .waitClose node],
       .ok (w.ssh node).output) := by
  simp [run_command, h1, h2, h3, hk, h4, h5, h6, h7, h8]

/-! Structural lemmas about the driver loop and `main`. -/

lemma runNodes_lines (w : World) (command : String) (ns : List String) :
    (runNodes w command ns).1 =
      (ns.map (fun n =>
        [OutLine.connecting n, resultLine w command n, OutLine.blank])).flatten := by
  induction ns with
  | nil => rfl
  | cons n rest ih => simp [runNodes, ih]

lemma runNodes_events (w : World) (command : String) (ns : List String) :
    (runNodes w command ns).2.1 =
      (ns.map (fun n => (run_command w n command).1)).flatten := by
  induction ns with
  | nil => rfl
  | cons n rest ih => simp [runNodes, ih]

lemma runNodes_calls (w : World) (command : String) (ns : List String) :
    (runNodes w command ns).2.2 = ns.map (fun n => (n, command)) := by
  induction ns with
  | nil => rfl
  | cons n rest ih => simp [runNodes, ih]

lemma main_ok (w : World) (args nodes : List String)
    (hargs : 2 ≤ args.length) (hc : w.config = .ok nodes) :
    main w args =
      ⟨0,
       .welcome :: (runNodes w (String.intercalate " " (args.drop 1)) nodes).1,
       (runNodes w (String.intercalate " " (args.drop 1)) nodes).2.1,
       (runNodes w (String.intercalate " " (args.drop 1)) nodes).2.2⟩ := by
  simp [main, hc, Nat.not_lt.mpr hargs]

lemma main_usage (w : World) (args : List String) (hargs : args.length < 2) :
    main w args = ⟨1, [.welcome, .usage (args.headD "")], [], []⟩ := by
  simp [main, hargs]

lemma main_config_error (w : World) (args : List String) (e : ConfigError)
    (hargs : 2 ≤ args.length) (hc : w.config = .error e) :
    main w args = ⟨1, [.welcome], [], []⟩ := by
  simp [main, hc, Nat.not_lt.mpr hargs]

lemma errorLine_mem_main (w : World) (args pre post : List String)
    (node : String) (e : RunError)
    (hargs : 2 ≤ args.length) (hc : w.config = .ok (pre ++ node :: post))
    (he : (run_command w node (String.intercalate " " (args.drop 1))).2 =
      .error e) :
    OutLine.errorLine node e ∈ (main w args).lines := by
  rw [main_ok w args (pre ++ node :: post) hargs hc]
  have hres : resultLine w (String.intercalate " " (args.drop 1)) node =
      .errorLine node e := by
    simp only [resultLine, he]
  simp only [runNodes_lines]
  refine List.mem_cons_of_mem _ ?_
  refine List.mem_flatten_of_mem
    (List.mem_map_of_mem _ (List.mem_append_right pre (List.mem_cons_self node post))) ?_
  rw [hres]
  simp

lemma rc_error_of_keys_error (w : World) (node command : String) (e0 : RunError)
    (hk : get_ssh_key_paths w = .error e0) :
    ∃ e, (run_command w node command).2 = .error e := by
  cases h1 : (w.ssh node).connect with
  | false => exact ⟨_, by rw [rc_connect_false w node command h1]⟩
  | true =>
    cases h2 : (w.ssh node).sessionNew with
    | false => exact ⟨_, by rw [rc_session_false w node command h1 h2]⟩
    | true =>
      cases h3 : (w.ssh node).handshake with
      | false => exact ⟨_, by rw [rc_handshake_false w node command h1 h2 h3]⟩
      | true => exact ⟨e0, by rw [rc_keys_error w node command e0 h1 h2 h3 hk]⟩

lemma get_keys_none (w : World) (hh : w.env "HOME" = none) :
    get_ssh_key_paths w = .error .configurationError := by
  simp [get_ssh_key_paths, hh]

lemma ssh_path_pub (home : String) :
    home ++ "/.ssh" ++ "/id_rsa.pub" = home ++ "/.ssh/id_rsa.pub" := by
  rw [String.append_assoc]
  exact congrArg (fun s => home ++ s) (by decide)

lemma ssh_path_priv (home : String) :
    home ++ "/.ssh" ++ "/id_rsa" = home ++ "/.ssh/id_rsa" := by
  rw [String.append_assoc]
  exact congrArg (fun s => home ++ s) (by decide)

lemma get_keys_missing (w : World) (home : String)
    (hh : w.env "HOME" = some home)
    (hp : w.fileExists (home ++ "/.ssh/id_rsa.pub") = false) :
    get_ssh_key_paths w = .error .keyNotFound := by
  simp [get_ssh_key_paths, hh, ssh_path_pub, hp]

lemma main_calls (w : World) (args nodes : List String)
    (hargs : 2 ≤ args.length) (hc : w.config = .ok nodes) :
    (main w args).calls =
      nodes.map (fun n => (n, String.intercalate " " (args.drop 1))) := by
  rw [main_ok w args nodes hargs hc]
  exact runNodes_calls w _ nodes

lemma main_events (w : World) (args nodes : List String)
    (hargs : 2 ≤ args.length) (hc : w.config = .ok nodes) :
    (main w args).events =
      (nodes.map (fun n =>
        (run_command w n (String.intercalate " " (args.drop 1))).1)).flatten := by
  rw [main_ok w args nodes hargs hc]
  exact runNodes_events w _ nodes

lemma main_exit_ok (w : World) (args nodes : List String)
    (hargs : 2 ≤ args.length) (hc : w.config = .ok nodes) :
    (main w args).exitCode = 0 := by
  rw [main_ok w args nodes hargs hc]

lemma rc_trace_prefix (w : World) (node command : String)
    (h1 : (w.ssh node).connect = true) (h2 : (w.ssh node).sessionNew = true)
    (h3 : (w.ssh node).handshake = true) :
    (run_command w node command).1.take 3 =
      [.tcpConnect node, .handshake node, .resolveCreds node] := by
  cases hk : get_ssh_key_paths w with
  | error e => rw [rc_keys_error w node command e h1 h2 h3 hk]; rfl
  | ok p =>
    obtain ⟨pubkey, privkey⟩ := p
    cases h4 : (w.ssh node).auth with
    | false =>
      rw [rc_auth_false w node command pubkey privkey h1 h2 h3 hk h4]; rfl
    | true =>
      cases h5 : (w.ssh node).channelOpen with
      | false =>
        rw [rc_channel_false w node command pubkey privkey h1 h2 h3 hk h4 h5]
        rfl
      | true =>
        cases h6 : (w.ssh node).exec with
        | false =>
          rw [rc_exec_false w node command pubkey privkey h1 h2 h3 hk h4 h5 h6]
          rfl
        | true =>
          cases h7 : (w.ssh node).readOk with
          | false =>
            rw [rc_read_false w node command pubkey privkey h1 h2 h3 hk h4 h5 h6 h7]
            rfl
          | true =>
            cases h8 : (w.ssh node).closeOk with
            | false =>
              rw [rc_close_false w node command pubkey privkey h1 h2 h3 hk h4 h5 h6 h7 h8]
              rfl
            | true =>
              rw [rc_all_ok w node command pubkey privkey h1 h2 h3 hk h4 h5 h6 h7 h8]
              rfl

lemma authUsers_append (a b : List Event) :
    authUsers (a ++ b) = authUsers a ++ authUsers b := by
  induction a with
  | nil => rfl
  | cons x rest ih => cases x <;> simp [authUsers, ih]

lemma authUsers_rc (w : World) (node command : String) :
    (authUsers (run_command w node command).1).all (fun u => u == "ubuntu") =
      true := by
  cases h1 : (w.ssh node).connect with
  | false => rw [rc_connect_false w node command h1]; rfl
  | true =>
    cases h2 : (w.ssh node).sessionNew with
    | false => rw [rc_session_false w node command h1 h2]; rfl
    | true =>
      cases h3 : (w.ssh node).handshake with
      | false => rw [rc_handshake_false w node command h1 h2 h3]; rfl
      | true =>
        cases hk : get_ssh_key_paths w with
        | error e => rw [rc_keys_error w node command e h1 h2 h3 hk]; rfl
        | ok p =>
          obtain ⟨pubkey, privkey⟩ := p
          cases h4 : (w.ssh node).auth with
          | false =>
            rw [rc_auth_false w node command pubkey privkey h1 h2 h3 hk h4]; rfl
          | true =>
            cases h5 : (w.ssh node).channelOpen with
            | false =>
              rw [rc_channel_false w node command pubkey privkey h1 h2 h3 hk h4 h5]
              rfl
            | true =>
              cases h6 : (w.ssh node).exec with
              | false =>
                rw [rc_exec_false w node command pubkey privkey h1 h2 h3 hk h4 h5 h6]
                rfl
              | true =>
                cases h7 : (w.ssh node).readOk with
                | false =>
                  rw [rc_read_false w node command pubkey privkey h1 h2 h3 hk h4 h5 h6 h7]
                  rfl
                | true =>
                  cases h8 : (w.ssh node).closeOk with
                  | false =>
                    rw [rc_close_false w node command pubkey privkey h1 h2 h3 hk h4 h5 h6 h7 h8]
                    rfl
                  | true =>
                    rw [rc_all_ok w node command pubkey privkey h1 h2 h3 hk h4 h5 h6 h7 h8]
                    rfl

lemma authUsers_runNodes (w : World) (command : String) (ns : List String) :
    (authUsers (runNodes w command ns).2.1).all (fun u => u == "ubuntu") =
      true := by
  induction ns with
  | nil => rfl
  | cons n rest ih =>
    simp [runNodes, authUsers_append, List.all_append, authUsers_rc w n command, ih]

lemma authUsers_main (w : World) (args : List String) :
    (authUsers (main w args).events).all (fun u => u == "ubuntu") = true := by
  by_cases hlen : args.length < 2
  · rw [main_usage w args hlen]; rfl
  · cases hc : w.config with
    | error e => rw [main_config_error w args e (Nat.le_of_not_lt hlen) hc]; rfl
    | ok nodes =>
      rw [main_ok w args nodes (Nat.le_of_not_lt hlen) hc]
      exact authUsers_runNodes w _ nodes

/-- Claim C1: for every node address and command string, `run_command`
performs its steps in this exact order, each step fatal on failure (an
error at any step returns immediately without performing later steps):
TCP connect to port 22, session creation, protocol handshake, credential
resolution, public-key authentication, channel open, exec request, read of
all remote output into one string, and wait for the channel to close
before the output is returned. -/
theorem run_command_protocol (w : World) (node command : String) :
    ((w.ssh node).connect = false →
      run_command w node command =
        ([.tcpConnect node], .error .connectError))
  ∧ ((w.ssh node).connect = true → (w.ssh node).sessionNew = false →
      run_command w node command =
        ([.tcpConnect node], .error .sessionError))
  ∧ ((w.ssh node).connect = true → (w.ssh node).sessionNew = true →
      (w.ssh node).handshake = false →
      run_command w node command =
        ([.tcpConnect node, .handshake node], .error .handshakeError))
  ∧ (∀ e, (w.ssh node).connect = true → (w.ssh node).sessionNew = true →
      (w.ssh node).handshake = true → get_ssh_key_paths w = .error e →
      run_command w node command =
        ([.tcpConnect node, .handshake node, .resolveCreds node], .error e))
  ∧ (∀ pubkey privkey, (w.ssh node).connect = true →
      (w.ssh node).sessionNew = true → (w.ssh node).handshake = true →
      get_ssh_key_paths w = .ok (pubkey, privkey) →
      (w.ssh node).auth = false →
      run_command w node command =
        ([.tcpConnect node, .handshake node, .resolveCreds node,
          .auth node "ubuntu" pubkey privkey], .error .authError))
  ∧ (∀ pubkey privkey, (w.ssh node).connect = true →
      (w.ssh node).sessionNew = true → (w.ssh node).handshake = true →
      get_ssh_key_paths w = .ok (pubkey, privkey) →
      (w.ssh node).auth = true → (w.ssh node).channelOpen = false →
      run_command w node command =
        ([.tcpConnect node, .handshake node, .resolveCreds node,
          .auth node "ubuntu" pubkey privkey, .channelOpen node],
         .error .channelError))
  ∧ (∀ pubkey privkey, (w.ssh node).connect = true →
      (w.ssh node).sessionNew = true → (w.ssh node).handshake = true →
      get_ssh_key_paths w = .ok (pubkey, privkey) →
      (w.ssh node).auth = true → (w.ssh node).channelOpen = true →
      (w.ssh node).exec = false →
      run_command w node command =
        ([.tcpConnect node, .handshake node, .resolveCreds node,
          .auth node "ubuntu" pubkey privkey, .channelOpen node,
          .execRequest node command], .error .execError))
  ∧ (∀ pubkey privkey, (w.ssh node).connect = true →
      (w.ssh node).sessionNew = true → (w.ssh node).handshake = true →
      get_ssh_key_paths w = .ok (pubkey, privkey) →
      (w.ssh node).auth = true → (w.ssh node).channelOpen = true →
      (w.ssh node).exec = true → (w.ssh node).readOk = false →
      run_command w node command =
        ([.tcpConnect node, .handshake node, .resolveCreds node,
          .auth node "ubuntu" pubkey privkey, .channelOpen node,
          .execRequest node command, .readOutput node], .error .readError))
  ∧ (∀ pubkey privkey, (w.ssh node).connect = true →
      (w.ssh node).sessionNew = true → (w.ssh node).handshake = true →
      get_ssh_key_paths w = .ok (pubkey, privkey) →
      (w.ssh node).auth = true → (w.ssh node).channelOpen = true →
      (w.ssh node).exec = true → (w.ssh node).readOk = true →
      (w.ssh node).closeOk = false →
      run_command w node command =
        ([.tcpConnect node, .handshake node, .resolveCreds node,
          .auth node "ubuntu" pubkey privkey, .channelOpen node,
          .execRequest node command, .readOutput node, .waitClose node],
         .error .closeError))
  ∧ (∀ pubkey privkey, (w.ssh node).connect = true →
      (w.ssh node).sessionNew = true → (w.ssh node).handshake = true →
      get_ssh_key_paths w = .ok (pubkey, privkey) →
      (w.ssh node).auth = true → (w.ssh node).channelOpen = true →
      (w.ssh node).exec = true → (w.ssh node).readOk = true →
      (w.ssh node).closeOk = true →
      run_command w node command =
        ([.tcpConnect node, .handshake node, .resolveCreds node,
          .auth node "ubuntu" pubkey privkey, .channelOpen node,
          .execRequest node command, .readOutput node, .waitClose node],
         .ok (w.ssh node).output)) :=
  ⟨rc_connect_false w node command,
   rc_session_false w node command,
   rc_handshake_false w node command,
   fun e => rc_keys_error w node command e,
   fun pubkey privkey h1 h2 h3 hk h4 =>
     rc_auth_false w node command pubkey privkey h1 h2 h3 hk h4,
   fun pubkey privkey h1 h2 h3 hk h4 h5 =>
     rc_channel_false w node command pubkey privkey h1 h2 h3 hk h4 h5,
   fun pubkey privkey h1 h2 h3 hk h4 h5 h6 =>
     rc_exec_false w node command pubkey privkey h1 h2 h3 hk h4 h5 h6,
   fun pubkey privkey h1 h2 h3 hk h4 h5 h6 h7 =>
     rc_read_false w node command pubkey privkey h1 h2 h3 hk h4 h5 h6 h7,
   fun pubkey privkey h1 h2 h3 hk h4 h5 h6 h7 h8 =>
     rc_close_false w node command pubkey privkey h1 h2 h3 hk h4 h5 h6 h7 h8,
   fun pubkey privkey h1 h2 h3 hk h4 h5 h6 h7 h8 =>
     rc_all_ok w node command pubkey privkey h1 h2 h3 hk h4 h5 h6 h7 h8⟩

/-- Witness for C1: in the fully healthy world the whole protocol sequence
runs in order and the remote output is returned. -/
theorem run_command_protocol_witness :
    run_command wGood "n1" "echo hi" =
      ([.tcpConnect "n1", .handshake "n1", .resolveCreds "n1",
        .auth "n1" "ubuntu" "/home/u/.ssh/id_rsa.pub" "/home/u/.ssh/id_rsa",
        .channelOpen "n1", .execRequest "n1" "echo hi", .readOutput "n1",
        .waitClose "n1"],
       .ok "hi\n") := by
  have h := run_command_protocol wGood "n1" "echo hi"
  exact h.2.2.2.2.2.2.2.2.2 "/home/u/.ssh/id_rsa.pub" "/home/u/.ssh/id_rsa"
    rfl rfl rfl (by decide) rfl rfl rfl rfl rfl

/-- Claim C2: for every well-formed configuration with node list `nodes`,
the driver invokes the executor once per node, in list order, with the
same command string each time, and the event trace is the concatenation of
the per-node traces in list order, so node N+1 is never contacted before
node N's attempt has fully resolved. -/
theorem driver_invocations (w : World) (args nodes : List String)
    (hargs : 2 ≤ args.length) (hc : w.config = .ok nodes) :
    (main w args).calls =
      nodes.map (fun n => (n, String.intercalate " " (args.drop 1)))
  ∧ (main w args).events =
      (nodes.map (fun n =>
        (run_command w n (String.intercalate " " (args.drop 1))).1)).flatten :=
  ⟨main_calls w args nodes hargs hc, main_events w args nodes hargs hc⟩

/-- Witness for C2: a two-node configuration yields exactly two executor
invocations, in order, with the same command. -/
theorem driver_invocations_witness :
    (main wGood ["prog", "uptime"]).calls =
      [("n1", "uptime"), ("n2", "uptime")] := by
  have h := (driver_invocations wGood ["prog", "uptime"] ["n1", "n2"]
    (by decide) rfl).1
  exact h.trans (by decide)

/-- Claim C3: a failure of one node's attempt aborts only that node: an
error line is printed for it, and every subsequent node of the list is
still attempted. -/
theorem node_failure_isolated (w : World) (args pre post : List String)
    (node : String) (e : RunError)
    (hargs : 2 ≤ args.length) (hc : w.config = .ok (pre ++ node :: post))
    (he : (run_command w node (String.intercalate " " (args.drop 1))).2 =
      .error e) :
    OutLine.errorLine node e ∈ (main w args).lines
  ∧ ∀ m ∈ post,
      (m, String.intercalate " " (args.drop 1)) ∈ (main w args).calls := by
  refine ⟨errorLine_mem_main w args pre post node e hargs hc he, ?_⟩
  intro m hm
  rw [main_calls w args (pre ++ node :: post) hargs hc]
  exact List.mem_map_of_mem _
    (List.mem_append_right pre (List.mem_cons_of_mem node hm))

/-- Witness for C3: with node `n1` unreachable and node `n2` healthy, an
error line is printed for `n1` and `n2` is still attempted. -/
theorem node_failure_isolated_witness :
    OutLine.errorLine "n1" RunError.connectError ∈
      (main wMixed ["p", "c"]).lines
  ∧ ("n2", String.intercalate " " (["p", "c"].drop 1)) ∈
      (main wMixed ["p", "c"]).calls := by
  have h := node_failure_isolated wMixed ["p", "c"] [] ["n2"] "n1"
    RunError.connectError (by decide) rfl (by decide)
  exact ⟨h.1, h.2 "n2" (by decide)⟩

/-- Counterexample to C4 as stated: with `HOME` unset, a healthy node is
still contacted (a TCP connect event occurs) and the process exits zero,
so the missing environment variable is neither fatal to the whole process
nor does it prevent node connection attempts. -/
theorem home_unset_cex :
    wNoHome.env "HOME" = none
  ∧ Event.tcpConnect "n1" ∈ (main wNoHome ["p", "c"]).events
  ∧ (main wNoHome ["p", "c"]).exitCode = 0 := by
  decide

/-- Claim C4 as amended: if the home-directory environment variable is
unset, the resulting `configurationError` is per-node, not fatal to the
process: it occurs during each node's attempt only after that node's
connect, session creation and handshake succeed, an error line citing it
is printed for the node, the run proceeds, and the process exits zero. -/
theorem home_unset_per_node (w : World) (args nodes : List String)
    (hh : w.env "HOME" = none) (hargs : 2 ≤ args.length)
    (hc : w.config = .ok nodes) :
    (main w args).exitCode = 0
  ∧ ∀ n ∈ nodes, (w.ssh n).connect = true → (w.ssh n).sessionNew = true →
      (w.ssh n).handshake = true →
      OutLine.errorLine n RunError.configurationError ∈ (main w args).lines := by
  refine ⟨main_exit_ok w args nodes hargs hc, ?_⟩
  intro n hn h1 h2 h3
  have hrc : (run_command w n (String.intercalate " " (args.drop 1))).2 =
      .error .configurationError := by
    rw [rc_keys_error w n _ RunError.configurationError h1 h2 h3
      (get_keys_none w hh)]
  obtain ⟨pre, post, hsplit⟩ := List.append_of_mem hn
  rw [hsplit] at hc
  exact errorLine_mem_main w args pre post n _ hargs hc hrc

/-- Witness for the amended C4: with `HOME` unset and healthy nodes, the
run exits zero and prints a configuration error line for `n1`. -/
theorem home_unset_per_node_witness :
    (main wNoHome ["p", "c"]).exitCode = 0
  ∧ OutLine.errorLine "n1" RunError.configurationError ∈
      (main wNoHome ["p", "c"]).lines := by
  have h := home_unset_per_node wNoHome ["p", "c"] ["n1", "n2"] rfl
    (by decide) rfl
  exact ⟨h.1, h.2 "n1" (by decide) rfl rfl rfl⟩

/-- Counterexample to C5 as stated: with `HOME` set, both key files absent
and the single node unreachable, that node's attempt fails with the
transport error `connectError`, not `keyNotFound`, so not every node
attempt fails with a `KeyNotFoundError`. -/
theorem missing_keys_cex :
    wNoKeysDown.env "HOME" = some "/home/u"
  ∧ wNoKeysDown.fileExists "/home/u/.ssh/id_rsa.pub" = false
  ∧ wNoKeysDown.fileExists "/home/u/.ssh/id_rsa" = false
  ∧ (main wNoKeysDown ["p", "c"]).lines =
      [.welcome, .connecting "n1", .errorLine "n1" .connectError, .blank]
  ∧ OutLine.errorLine "n1" RunError.keyNotFound ∉
      (main wNoKeysDown ["p", "c"]).lines := by
  decide

/-- Claim C5 as amended: if the home directory lacks both key files, every
node attempt that reaches credential resolution (its connect, session
creation and handshake succeeded) fails with `keyNotFound`; every node
still receives a failure line of some kind, the run completes, and the
process exits zero. -/
theorem missing_keys_amended (w : World) (args nodes : List String)
    (home : String)
    (hh : w.env "HOME" = some home)
    (hp : w.fileExists (home ++ "/.ssh/id_rsa.pub") = false)
    (_hq : w.fileExists (home ++ "/.ssh/id_rsa") = false)
    (hargs : 2 ≤ args.length) (hc : w.config = .ok nodes) :
    (main w args).exitCode = 0
  ∧ (∀ n ∈ nodes, (w.ssh n).connect = true → (w.ssh n).sessionNew = true →
      (w.ssh n).handshake = true →
      OutLine.errorLine n RunError.keyNotFound ∈ (main w args).lines)
  ∧ (∀ n ∈ nodes, ∃ e, OutLine.errorLine n e ∈ (main w args).lines) := by
  have hkeys : get_ssh_key_paths w = .error .keyNotFound :=
    get_keys_missing w home hh hp
  refine ⟨main_exit_ok w args nodes hargs hc, ?_, ?_⟩
  · intro n hn h1 h2 h3
    have hrc : (run_command w n (String.intercalate " " (args.drop 1))).2 =
        .error .keyNotFound := by
      rw [rc_keys_error w n _ RunError.keyNotFound h1 h2 h3 hkeys]
    obtain ⟨pre, post, hsplit⟩ := List.append_of_mem hn
    rw [hsplit] at hc
    exact errorLine_mem_main w args pre post n _ hargs hc hrc
  · intro n hn
    obtain ⟨e, hrc⟩ :=
      rc_error_of_keys_error w n (String.intercalate " " (args.drop 1)) _ hkeys
    obtain ⟨pre, post, hsplit⟩ := List.append_of_mem hn
    rw [hsplit] at hc
    exact ⟨e, errorLine_mem_main w args pre post n e hargs hc hrc⟩

/-- Witness for the amended C5: with both key files missing and healthy
nodes, the run exits zero and prints a key-not-found error line for
`n1`. -/
theorem missing_keys_amended_witness :
    (main wNoKeys ["p", "c"]).exitCode = 0
  ∧ OutLine.errorLine "n1" RunError.keyNotFound ∈
      (main wNoKeys ["p", "c"]).lines := by
  have h := missing_keys_amended wNoKeys ["p", "c"] ["n1", "n2"] "/home/u"
    rfl rfl rfl (by decide) rfl
  exact ⟨h.1, h.2.1 "n1" (by decide) rfl rfl rfl⟩

/-- Claim C6: the credential resolver returns exactly the pair
`(home/.ssh/id_rsa.pub, home/.ssh/id_rsa)` when `HOME` is set and both
files exist; it signals `configurationError` exactly when `HOME` is unset,
and `keyNotFound` exactly when `HOME` is set but either key file is
absent; and it reads nothing of the world besides the environment and the
filesystem. -/
theorem get_ssh_key_paths_spec (w : World) :
    (∀ home, w.env "HOME" = some home →
      (get_ssh_key_paths w =
          .ok (home ++ "/.ssh/id_rsa.pub", home ++ "/.ssh/id_rsa") ↔
        w.fileExists (home ++ "/.ssh/id_rsa.pub") = true ∧
          w.fileExists (home ++ "/.ssh/id_rsa") = true))
  ∧ (get_ssh_key_paths w = .error .configurationError ↔
      w.env "HOME" = none)
  ∧ (get_ssh_key_paths w = .error .keyNotFound ↔
      ∃ home, w.env "HOME" = some home ∧
        (w.fileExists (home ++ "/.ssh/id_rsa.pub") = false ∨
         w.fileExists (home ++ "/.ssh/id_rsa") = false))
  ∧ (∀ w2 : World, w.env = w2.env → w.fileExists = w2.fileExists →
      get_ssh_key_paths w = get_ssh_key_paths w2) := by
  refine ⟨?_, ?_, ?_, ?_⟩
  · intro home hh
    simp only [get_ssh_key_paths, hh]
    rw [ssh_path_pub, ssh_path_priv]
    cases hp : w.fileExists (home ++ "/.ssh/id_rsa.pub") <;>
      cases hq : w.fileExists (home ++ "/.ssh/id_rsa") <;>
      simp [hp, hq]
  · cases henv : w.env "HOME" with
    | none => simp [get_keys_none w henv, henv]
    | some home =>
      simp only [get_ssh_key_paths, henv]
      split <;> simp
  · cases henv : w.env "HOME" with
    | none => simp [get_keys_none w henv, henv]
    | some home =>
      simp only [get_ssh_key_paths, henv]
      rw [ssh_path_pub, ssh_path_priv]
      cases hp : w.fileExists (home ++ "/.ssh/id_rsa.pub") <;>
        cases hq : w.fileExists (home ++ "/.ssh/id_rsa") <;>
        simp [hp, hq]
  · intro w2 he hf
    simp only [get_ssh_key_paths]
    rw [he, hf]

/-- Witness for C6: in the world without `HOME` the resolver signals the
configuration error, and in the healthy world it returns both paths. -/
theorem get_ssh_key_paths_spec_witness :
    get_ssh_key_paths wNoHome = .error .configurationError :=
  (get_ssh_key_paths_spec wNoHome).2.1.mpr rfl

/-- Claim C7: with at least one positional argument after the program
name, the command string sent to every node is exactly those arguments
joined with single spaces; with fewer, the usage message is printed, the
exit status is nonzero, and no node is contacted. -/
theorem command_joining (w : World) (args : List String) :
    (∀ nodes, 2 ≤ args.length → w.config = .ok nodes →
      (main w args).calls =
        nodes.map (fun n => (n, String.intercalate " " (args.drop 1))))
  ∧ (args.length < 2 →
      (main w args).exitCode = 1 ∧
        OutLine.usage (args.headD "") ∈ (main w args).lines ∧
        (main w args).events = [] ∧ (main w args).calls = []) := by
  constructor
  · intro nodes hargs hc
    exact main_calls w args nodes hargs hc
  · intro hlen
    rw [main_usage w args hlen]
    exact ⟨rfl, by simp, rfl, rfl⟩

/-- Witness for C7: the argument vector `["run", "apt", "update"]` (program
name `run`) produces the command string `"apt update"` for every node. -/
theorem command_joining_witness :
    (main wGood ["run", "apt", "update"]).calls =
      [("n1", "apt update"), ("n2", "apt update")] := by
  have h := (command_joining wGood ["run", "apt", "update"]).1 ["n1", "n2"]
    (by decide) rfl
  exact h.trans (by decide)

/-- Claim C8: if reading or parsing the configuration file fails (missing
file, malformed syntax, or missing node-list field), the process exits
with a nonzero status having performed zero node connection attempts and
zero executor invocations. -/
theorem config_error_fatal (w : World) (args : List String) (e : ConfigError)
    (hc : w.config = .error e) :
    (main w args).exitCode ≠ 0
  ∧ (main w args).events = [] ∧ (main w args).calls = [] := by
  by_cases hlen : args.length < 2
  · rw [main_usage w args hlen]
    exact ⟨Nat.one_ne_zero, rfl, rfl⟩
  · rw [main_config_error w args e (Nat.le_of_not_lt hlen) hc]
    exact ⟨Nat.one_ne_zero, rfl, rfl⟩

/-- Witness for C8: a configuration lacking the node-list field exits
nonzero with no events and no executor invocations. -/
theorem config_error_fatal_witness :
    (main wBadConfig ["p", "c"]).exitCode ≠ 0
  ∧ (main wBadConfig ["p", "c"]).events = []
  ∧ (main wBadConfig ["p", "c"]).calls = [] :=
  config_error_fatal wBadConfig ["p", "c"] ConfigError.missingNodesField rfl

/-- Claim C9: every authentication event of every run, at the level of a
single node attempt and of the whole driver, carries exactly the username
`"ubuntu"`, whatever the world, configuration, environment and arguments
are. -/
theorem fixed_username (w : World) (node command : String)
    (args : List String) :
    (authUsers (run_command w node command).1).all
      (fun u => u == "ubuntu") = true
  ∧ (authUsers (main w args).events).all (fun u => u == "ubuntu") = true :=
  ⟨authUsers_rc w node command, authUsers_main w args⟩

/-- Claim C10: within a single node attempt, credential resolution happens
only after the TCP connection and the handshake succeeded: an unreachable
node fails with the transport error and its trace holds no credential
resolution event, every trace containing a resolution event starts with
connect, handshake, resolution in that order, and a missing-key or
missing-home failure implies connect and handshake succeeded. -/
theorem creds_after_handshake (w : World) (node command : String) :
    ((w.ssh node).connect = false →
      (run_command w node command).2 = .error .connectError
      ∧ Event.resolveCreds node ∉ (run_command w node command).1)
  ∧ (Event.resolveCreds node ∈ (run_command w node command).1 →
      (w.ssh node).connect = true ∧ (w.ssh node).handshake = true ∧
        (run_command w node command).1.take 3 =
          [.tcpConnect node, .handshake node, .resolveCreds node])
  ∧ ((run_command w node command).2 = .error .keyNotFound ∨
      (run_command w node command).2 = .error .configurationError →
      (w.ssh node).connect = true ∧ (w.ssh node).handshake = true) := by
  refine ⟨?_, ?_, ?_⟩
  · intro h1
    rw [rc_connect_false w node command h1]
    exact ⟨rfl, by simp⟩
  · intro hmem
    cases h1 : (w.ssh node).connect with
    | false => rw [rc_connect_false w node command h1] at hmem; simp at hmem
    | true =>
      cases h2 : (w.ssh node).sessionNew with
      | false =>
        rw [rc_session_false w node command h1 h2] at hmem; simp at hmem
      | true =>
        cases h3 : (w.ssh node).handshake with
        | false =>
          rw [rc_handshake_false w node command h1 h2 h3] at hmem
          simp at hmem
        | true => exact ⟨rfl, rfl, rc_trace_prefix w node command h1 h2 h3⟩
  · intro hres
    cases h1 : (w.ssh node).connect with
    | false =>
      rw [rc_connect_false w node command h1] at hres
      rcases hres with h | h <;> simp at h
    | true =>
      cases h2 : (w.ssh node).sessionNew with
      | false =>
        rw [rc_session_false w node command h1 h2] at hres
        rcases hres with h | h <;> simp at h
      | true =>
        cases h3 : (w.ssh node).handshake with
        | false =>
          rw [rc_handshake_false w node command h1 h2 h3] at hres
          rcases hres with h | h <;> simp at h
        | true => exact ⟨rfl, rfl⟩

/-- Witness for C10: the unreachable node of `wNoKeysDown` fails with the
transport error and never resolves credentials. -/
theorem creds_after_handshake_witness :
    (run_command wNoKeysDown "n1" "c").2 = .error .connectError
  ∧ Event.resolveCreds "n1" ∉ (run_command wNoKeysDown "n1" "c").1 :=
  (creds_after_handshake wNoKeysDown "n1" "c").1 rfl

end ClusterRun
